import Mathlib

/-!
Verification development for the merkabah scoring-and-routing pipeline.

Python floats are modeled as exact rationals (ℚ); Python `min`/`max` are
modeled by `qmin`/`qmax` (first argument returned on ties, as in Python);
Python `round(x, 3)` is modeled by `round3` (round half to even).
Strings are Lean `String`s (Python code points = Lean `Char`s).
-/

namespace Merkabah

/-- Whitespace characters recognized by Python `str.split()` / `str.strip()` /
regex `\s` (ASCII range, which covers all inputs considered here). -/
def isPySpace (c : Char) : Bool :=
  c = ' ' || c = '\t' || c = '\n' || c = '\r' || c = '\x0b' || c = '\x0c'

/-- Python `min(a, b)`: returns the first argument unless the second is smaller. -/
def qmin (a b : ℚ) : ℚ := if b < a then b else a

/-- Python `max(a, b)`: returns the first argument unless the second is larger. -/
def qmax (a b : ℚ) : ℚ := if a < b then b else a

theorem qmin_eq_min (a b : ℚ) : qmin a b = min a b := by
  unfold qmin
  rcases le_or_lt a b with h | h
  · rw [if_neg (not_lt.mpr h), min_eq_left h]
  · rw [if_pos h, min_eq_right h.le]

theorem qmax_eq_max (a b : ℚ) : qmax a b = max a b := by
  unfold qmax
  rcases le_or_lt b a with h | h
  · rw [if_neg (not_lt.mpr h), max_eq_left h]
  · rw [if_pos h, max_eq_right h.le]

/-- Round half to even at integer precision, as Python `round` does on the
exact (rational) value. -/
def rhe (q : ℚ) : ℤ :=
  if q - ⌊q⌋ < 1/2 then ⌊q⌋
  else if 1/2 < q - ⌊q⌋ then ⌊q⌋ + 1
  else if ⌊q⌋ % 2 = 0 then ⌊q⌋ else ⌊q⌋ + 1

/-- Python `round(q, 3)`. -/
def round3 (q : ℚ) : ℚ := (rhe (q * 1000) : ℚ) / 1000

theorem rhe_intCast (n : ℤ) : rhe (n : ℚ) = n := by
  unfold rhe
  rw [Int.floor_intCast]
  rw [if_pos (by norm_num : (n : ℚ) - n < 1/2)]

theorem rhe_eq_of_lt_half (n : ℤ) (q : ℚ) (h1 : (n : ℚ) ≤ q) (h2 : q < n + 1/2) :
    rhe q = n := by
  have hf : ⌊q⌋ = n := by
    rw [Int.floor_eq_iff]
    refine ⟨h1, ?_⟩
    have : ((n : ℚ)) + 1/2 < n + 1 := by norm_num
    linarith
  unfold rhe
  rw [hf, if_pos (by linarith : q - (n : ℚ) < 1/2)]

theorem round3_eq (n : ℤ) (q : ℚ) (h1 : (n : ℚ) ≤ q * 1000) (h2 : q * 1000 < n + 1/2) :
    round3 q = (n : ℚ) / 1000 := by
  unfold round3
  rw [rhe_eq_of_lt_half n _ h1 h2]

theorem rhe_le (n : ℤ) (q : ℚ) (h : q ≤ (n : ℚ)) : rhe q ≤ n := by
  have hfl : ⌊q⌋ ≤ n := by
    have := Int.floor_le_floor h
    rwa [Int.floor_intCast] at this
  unfold rhe
  split
  · exact hfl
  case isFalse hlt =>
    have hge : (1:ℚ)/2 ≤ q - ⌊q⌋ := not_lt.mp hlt
    have hne : ⌊q⌋ ≠ n := by
      intro he
      have hfq := Int.floor_le q
      rw [he] at hge hfq
      linarith
    have hlt' : ⌊q⌋ + 1 ≤ n := by omega
    split
    · exact hlt'
    · split
      · exact hfl
      · exact hlt'

theorem rhe_nonneg (q : ℚ) (h : 0 ≤ q) : 0 ≤ rhe q := by
  have hfl : (0:ℤ) ≤ ⌊q⌋ := by
    rw [Int.le_floor]
    exact_mod_cast h
  unfold rhe
  split
  · exact hfl
  · split
    · omega
    · split
      · exact hfl
      · omega

theorem round3_nonneg (q : ℚ) (h : 0 ≤ q) : 0 ≤ round3 q := by
  unfold round3
  have : (0:ℤ) ≤ rhe (q * 1000) := rhe_nonneg _ (by positivity)
  positivity

theorem round3_le_one (q : ℚ) (h : q ≤ 1) : round3 q ≤ 1 := by
  unfold round3
  have h1 : rhe (q * 1000) ≤ 1000 := rhe_le 1000 _ (by push_cast; linarith)
  rw [div_le_one (by norm_num)]
  exact_mod_cast h1

/-- Python `str.lower()` (ASCII case folding, which covers the fixed lexicons). -/
def lowerStr (s : List Char) : List Char := s.map Char.toLower

/-- Decides whether the first list is a prefix of the second. -/
def isPrefixL : List Char → List Char → Bool
  | [], _ => true
  | _ :: _, [] => false
  | a :: as, b :: bs => a = b && isPrefixL as bs

/-- Decides whether `needle` occurs as a contiguous substring of `hay`
(Python `needle in hay`). -/
def containsSub (needle : List Char) : List Char → Bool
  | [] => needle.isEmpty
  | b :: bs => isPrefixL needle (b :: bs) || containsSub needle bs

/-- Python `word in message.lower()` for one lexicon word. -/
def substrHit (word : String) (message : String) : Bool :=
  containsSub word.data (lowerStr message.data)

/-- Python `sum(1 for word in lexicon if word in message.lower())`: number of
lexicon words occurring (case-insensitively) as substrings of the message. -/
def hits (lexicon : List String) (message : String) : ℕ :=
  lexicon.countP (fun w => substrHit w message)

/-- Helper for `pysplit`: accumulates the current (reversed) token. -/
def pysplitAux (cur : List Char) : List Char → List (List Char)
  | [] => if cur.isEmpty then [] else [cur.reverse]
  | c :: cs =>
    if isPySpace c then
      if cur.isEmpty then pysplitAux [] cs else cur.reverse :: pysplitAux [] cs
    else pysplitAux (c :: cur) cs

/-- Python `str.split()` with no argument: splits on whitespace runs and drops
empty tokens. -/
def pysplit (l : List Char) : List (List Char) := pysplitAux [] l

/-- Python `len(message.split())`. -/
def wordCount (message : String) : ℕ := (pysplit message.data).length

/-- Word-start counter equivalent to the length of `pysplit`: `prevSpace`
records whether the previous character was whitespace. -/
def wcAux (prevSpace : Bool) : List Char → ℕ
  | [] => 0
  | c :: cs => (if !(isPySpace c) && prevSpace then 1 else 0) + wcAux (isPySpace c) cs

/-- Python `sum(1 for c in message if c in ".,!?;:")`. -/
def punctCount (message : String) : ℕ :=
  message.data.countP (fun c => (".,!?;:").data.contains c)

/-- Python `str.strip()` on a char list: removes leading and trailing whitespace. -/
def pystrip (l : List Char) : List Char :=
  ((l.dropWhile isPySpace).reverse.dropWhile isPySpace).reverse

/-- Shared sub-score: `min(1.0, len(message) / 200.0)` (optimal 200 chars). -/
def length_score (message : String) : ℚ := qmin 1 ((message.length : ℚ) / 200)

/-- Shared sub-score: `min(1.0, word_count / 50.0)` (optimal 50 words). -/
def word_score (message : String) : ℚ := qmin 1 ((wordCount message : ℚ) / 50)

/-- Shared sentiment formula: `max(0.0, min(1.0, (pos - neg) / 10.0 + 0.5))`. -/
def sentiment_of (p n : ℕ) : ℚ :=
  qmax 0 (qmin 1 ((((p : ℤ) - (n : ℤ)) : ℚ) / 10 + 1/2))

/-- Shared sub-score: `min(1.0, punctuation_count / 5.0)`. -/
def punctuation_score (message : String) : ℚ := qmin 1 ((punctCount message : ℚ) / 5)

end Merkabah

namespace WhatsApp

open Merkabah

/-- Sentiment lexicon of `WhatsAppExtractor.calculate_harmony_score`. -/
def positive_words : List String :=
  ["good", "great", "love", "happy", "yes", "thanks", "please"]

/-- Negative sentiment lexicon of `WhatsAppExtractor.calculate_harmony_score`. -/
def negative_words : List String :=
  ["bad", "hate", "angry", "sad", "no", "never", "sorry"]

/-- Sentiment sub-score of `WhatsAppExtractor.calculate_harmony_score`. -/
def sentiment_score (message : String) : ℚ :=
  sentiment_of (hits positive_words message) (hits negative_words message)

/-- Embedding of `WhatsAppExtractor.calculate_harmony_score`
(src/merkabah_whatsapp.py, lines 49-73). -/
def calculate_harmony_score (message : String) : ℚ :=
  round3 (length_score message * 0.25 + word_score message * 0.25 +
    sentiment_score message * 0.25 + punctuation_score message * 0.25)

end WhatsApp

namespace Framework

open Merkabah

/-- Sentiment lexicon of `PlatformExtractor.calculate_harmony` (no "please"). -/
def positive_words : List String :=
  ["good", "great", "love", "happy", "yes", "thanks"]

/-- Negative sentiment lexicon of `PlatformExtractor.calculate_harmony` (no "sorry"). -/
def negative_words : List String :=
  ["bad", "hate", "angry", "sad", "no", "never"]

/-- Sentiment sub-score of `PlatformExtractor.calculate_harmony`. -/
def sentiment_score (message : String) : ℚ :=
  sentiment_of (hits positive_words message) (hits negative_words message)

/-- Embedding of `PlatformExtractor.calculate_harmony`
(src/platform_extractor_framework.py, lines 25-40). -/
def calculate_harmony (message : String) : ℚ :=
  round3 (length_score message * 0.25 + word_score message * 0.25 +
    sentiment_score message * 0.25 + punctuation_score message * 0.25)

end Framework

/-- Routing tiers, ordered by ascending quality threshold. -/
inductive Tier where
  | REVIEW
  | PROCESS
  | VERIFY
  | ARCHIVE
deriving DecidableEq

/-- Threshold bands shared by `WhatsAppExtractor.pipe_through_merkabah`
(src/merkabah_whatsapp.py, lines 124-135) and `PlatformExtractor.assign_face`
(src/platform_extractor_framework.py, lines 42-51). -/
def classify (score : ℚ) : Tier :=
  if score > 0.8 then Tier.ARCHIVE
  else if score > 0.6 then Tier.VERIFY
  else if score > 0.4 then Tier.PROCESS
  else Tier.REVIEW

/-- Action string attached to each tier by `pipe_through_merkabah`. -/
def tierAction : Tier → String
  | Tier.ARCHIVE => "ARCHIVE"
  | Tier.VERIFY => "VERIFY"
  | Tier.PROCESS => "PROCESS"
  | Tier.REVIEW => "REVIEW"

/-- Merkabah face attached to each tier by both routing functions. -/
def tierFace : Tier → String
  | Tier.ARCHIVE => "EAGLE"
  | Tier.VERIFY => "LION"
  | Tier.PROCESS => "OX"
  | Tier.REVIEW => "MAN"

namespace WhatsApp

open Merkabah

/-- Embedding of the routing part of `WhatsAppExtractor.pipe_through_merkabah`
(src/merkabah_whatsapp.py, lines 119-143): the assigned face and action for a
message (the wall-clock timestamp in the returned dict is outside the model). -/
def pipe_through_merkabah (message : String) : ℚ × String × String :=
  let harmony := calculate_harmony_score message
  if harmony > 0.8 then (harmony, "EAGLE", "ARCHIVE")
  else if harmony > 0.6 then (harmony, "LION", "VERIFY")
  else if harmony > 0.4 then (harmony, "OX", "PROCESS")
  else (harmony, "MAN", "REVIEW")

end WhatsApp

namespace Framework

/-- Embedding of `PlatformExtractor.assign_face`
(src/platform_extractor_framework.py, lines 42-51). -/
def assign_face (harmony : ℚ) : String :=
  if harmony > 0.8 then "EAGLE"
  else if harmony > 0.6 then "LION"
  else if harmony > 0.4 then "OX"
  else "MAN"

end Framework

namespace WhatsApp

open Merkabah

/-- Structured message record produced by `WhatsAppExtractor.extract_from_txt`
for one matching line (src/merkabah_whatsapp.py, lines 36-42). -/
structure Message where
  timestamp : String
  contact : String
  message : String
  length : ℕ
  word_count : ℕ
deriving DecidableEq

/-- Captured groups of the line pattern
`\[(\d{2}:\d{2}),\s*(\d{2}/\d{2}/\d{4})\]\s*([^:]+):\s*(.*)`. -/
structure Groups where
  time : List Char
  date : List Char
  contact : List Char
  body : List Char
deriving DecidableEq

/-- Takes exactly `n` decimal digits from the front of the list. -/
def takeDigits : ℕ → List Char → Option (List Char × List Char)
  | 0, cs => some ([], cs)
  | _ + 1, [] => none
  | n + 1, c :: cs =>
    if c.isDigit then
      match takeDigits n cs with
      | some (ds, rest) => some (c :: ds, rest)
      | none => none
    else none

/-- Consumes one expected literal character. -/
def expectChar (c : Char) : List Char → Option (List Char)
  | [] => none
  | d :: ds => if d = c then some ds else none

/-- Matches the tail `\s*([^:]+):\s*(.*)` of the line pattern (after `]`),
with Python's leftmost-greedy backtracking semantics: the sender group is the
text up to the first colon, minus the whitespace ceded to the greedy `\s*`;
the body group is the remainder of the line after the colon and any
whitespace, up to the first newline (`.` does not match a newline). -/
def matchTail (rest : List Char) : Option (List Char × List Char) :=
  match rest.findIdx? (fun c => c = ':') with
  | none => none
  | some i =>
    if i = 0 then none
    else
      let w := (rest.takeWhile isPySpace).length
      let k := min w (i - 1)
      let contact := (rest.drop k).take (i - k)
      let body := ((rest.drop (i + 1)).dropWhile isPySpace).takeWhile (fun c => c ≠ '\n')
      some (contact, body)

/-- Embedding of the `re.match` against the WhatsApp line pattern
(src/merkabah_whatsapp.py, line 33). Returns the four captured groups, or
`none` for a non-matching line. -/
def matchLine (line : List Char) : Option Groups := do
  let cs ← expectChar '[' line
  let (h1, cs) ← takeDigits 2 cs
  let cs ← expectChar ':' cs
  let (h2, cs) ← takeDigits 2 cs
  let cs ← expectChar ',' cs
  let cs := cs.dropWhile isPySpace
  let (d1, cs) ← takeDigits 2 cs
  let cs ← expectChar '/' cs
  let (d2, cs) ← takeDigits 2 cs
  let cs ← expectChar '/' cs
  let (d3, cs) ← takeDigits 4 cs
  let cs ← expectChar ']' cs
  let (contact, body) ← matchTail cs
  some ⟨h1 ++ (':' :: h2), (d1 ++ ('/' :: d2)) ++ ('/' :: d3), contact, body⟩

/-- Builds the message dict from the captured groups
(src/merkabah_whatsapp.py, lines 36-42): the stored message and contact are
stripped, while `length` and `word_count` are computed from the raw group. -/
def toMessage (g : Groups) : Message :=
  { timestamp := String.mk (g.date ++ (' ' :: g.time))
    contact := String.mk (pystrip g.contact)
    message := String.mk (pystrip g.body)
    length := g.body.length
    word_count := wordCount (String.mk g.body) }

/-- Line loop of `WhatsAppExtractor.extract_from_txt`
(src/merkabah_whatsapp.py, lines 31-42): non-matching lines are skipped. -/
def parse (lines : List String) : List Message :=
  lines.filterMap (fun l => (matchLine l.data).map toMessage)

end WhatsApp

namespace Joinity

open Merkabah

/-- Outcome of one outbound HTTP call, as observed by the caller: either a
reply with a status code together with the result of extracting the
backend-specific text field from the body (extraction raises on a malformed
body, carried as `Except.error`), or a raised network fault (timeout or
connection failure), whose message `requests` would attach to the exception. -/
inductive NetOutcome where
  | reply (status : ℕ) (extract : Except String String)
  | netfail (detail : String)

/-- Process-wide configuration, i.e. `os.getenv`. -/
def Env : Type := String → Option String

/-- Result of one backend query: the returned string, plus whether an
outbound request was issued before returning. -/
structure QueryOut where
  text : String
  requested : Bool
deriving DecidableEq

/-- Embedding of `JoinityOrchestrator.query_openai`
(src/merkabah_joinity.py, lines 34-48). Python's `if not api_key` treats both
an unset variable and one set to the empty string as missing. -/
def query_openai (env : Env) (net : NetOutcome) : QueryOut :=
  match env "OPENAI_API_KEY" with
  | none => ⟨"[MAN] OpenAI API key not configured", false⟩
  | some key =>
    if key = "" then ⟨"[MAN] OpenAI API key not configured", false⟩
    else
    match net with
    | NetOutcome.netfail d => ⟨"[MAN] Error: " ++ d, true⟩
    | NetOutcome.reply status ext =>
      if status = 200 then
        match ext with
        | Except.ok content => ⟨content, true⟩
        | Except.error e => ⟨"[MAN] Error: " ++ e, true⟩
      else ⟨"[MAN] OpenAI error: " ++ toString status, true⟩

/-- Embedding of `JoinityOrchestrator.query_anthropic`
(src/merkabah_joinity.py, lines 50-64). Python's `if not api_key` treats both
an unset variable and one set to the empty string as missing. -/
def query_anthropic (env : Env) (net : NetOutcome) : QueryOut :=
  match env "ANTHROPIC_API_KEY" with
  | none => ⟨"[LION] Anthropic API key not configured", false⟩
  | some key =>
    if key = "" then ⟨"[LION] Anthropic API key not configured", false⟩
    else
    match net with
    | NetOutcome.netfail d => ⟨"[LION] Error: " ++ d, true⟩
    | NetOutcome.reply status ext =>
      if status = 200 then
        match ext with
        | Except.ok content => ⟨content, true⟩
        | Except.error e => ⟨"[LION] Error: " ++ e, true⟩
      else ⟨"[LION] Anthropic error: " ++ toString status, true⟩

/-- Embedding of `JoinityOrchestrator.query_ollama`
(src/merkabah_joinity.py, lines 66-75): no credential is looked up. -/
def query_ollama (net : NetOutcome) : QueryOut :=
  match net with
  | NetOutcome.netfail d => ⟨"[OX] Ollama not running or error: " ++ d, true⟩
  | NetOutcome.reply status ext =>
    if status = 200 then
      match ext with
      | Except.ok content => ⟨content, true⟩
      | Except.error e => ⟨"[OX] Ollama not running or error: " ++ e, true⟩
    else ⟨"[OX] Ollama error: " ++ toString status, true⟩

/-- Embedding of `JoinityOrchestrator.query_deepseek`
(src/merkabah_joinity.py, lines 77-91). Python's `if not api_key` treats both
an unset variable and one set to the empty string as missing. -/
def query_deepseek (env : Env) (net : NetOutcome) : QueryOut :=
  match env "DEEPSEEK_API_KEY" with
  | none => ⟨"[EAGLE] DeepSeek API key not configured", false⟩
  | some key =>
    if key = "" then ⟨"[EAGLE] DeepSeek API key not configured", false⟩
    else
    match net with
    | NetOutcome.netfail d => ⟨"[EAGLE] Error: " ++ d, true⟩
    | NetOutcome.reply status ext =>
      if status = 200 then
        match ext with
        | Except.ok content => ⟨content, true⟩
        | Except.error e => ⟨"[EAGLE] Error: " ++ e, true⟩
      else ⟨"[EAGLE] DeepSeek error: " ++ toString status, true⟩

/-- The four backend variants orchestrated by `JoinityOrchestrator`. -/
inductive Backend where
  | openai
  | anthropic
  | ollama
  | deepseek
deriving DecidableEq

/-- Configuration key each backend resolves its credential from
(`none` for the local Ollama instance, which needs no credential). -/
def credKey : Backend → Option String
  | Backend.openai => some "OPENAI_API_KEY"
  | Backend.anthropic => some "ANTHROPIC_API_KEY"
  | Backend.ollama => none
  | Backend.deepseek => some "DEEPSEEK_API_KEY"

/-- The missing-credential message each backend returns without network I/O. -/
def missingMsg : Backend → String
  | Backend.openai => "[MAN] OpenAI API key not configured"
  | Backend.anthropic => "[LION] Anthropic API key not configured"
  | Backend.ollama => ""
  | Backend.deepseek => "[EAGLE] DeepSeek API key not configured"

/-- The error message each backend returns for a non-success status code. -/
def codeErrMsg (b : Backend) (status : ℕ) : String :=
  match b with
  | Backend.openai => "[MAN] OpenAI error: " ++ toString status
  | Backend.anthropic => "[LION] Anthropic error: " ++ toString status
  | Backend.ollama => "[OX] Ollama error: " ++ toString status
  | Backend.deepseek => "[EAGLE] DeepSeek error: " ++ toString status

/-- The message each backend returns when the call raises (timeout, connection
failure, or malformed body during extraction), wrapping the exception text. -/
def excMsg (b : Backend) (detail : String) : String :=
  match b with
  | Backend.openai => "[MAN] Error: " ++ detail
  | Backend.anthropic => "[LION] Error: " ++ detail
  | Backend.ollama => "[OX] Ollama not running or error: " ++ detail
  | Backend.deepseek => "[EAGLE] Error: " ++ detail

/-- Dispatch to the four per-backend query functions. -/
def query (b : Backend) (env : Env) (net : NetOutcome) : QueryOut :=
  match b with
  | Backend.openai => query_openai env net
  | Backend.anthropic => query_anthropic env net
  | Backend.ollama => query_ollama net
  | Backend.deepseek => query_deepseek env net

/-- The backend's credential resolves to a truthy (non-empty) string
(vacuously true for Ollama, which looks none up). -/
def credOk (b : Backend) (env : Env) : Prop :=
  ∀ k, credKey b = some k → ∃ v, env k = some v ∧ ¬ v = ""

/-- Python dict assignment `m[k] = v`: replaces the binding if the key is
present, otherwise appends it. -/
def dinsert (k v : String) (m : List (String × String)) : List (String × String) :=
  if m.any (fun p => p.1 == k) then
    m.map (fun p => if p.1 == k then (k, v) else p)
  else m ++ [(k, v)]

/-- Dict lookup on the association-list model. -/
def lookupKey (k : String) : List (String × String) → Option String
  | [] => none
  | p :: ps => if p.1 == k then some p.2 else lookupKey k ps

/-- One iteration of the fan-out loop in `JoinityOrchestrator.orchestrate`
(src/merkabah_joinity.py, lines 100-108): faces other than the four known ones
are skipped. -/
def queryFace (env : Env) (net : String → NetOutcome) (face : String) : Option String :=
  if face = "MAN" then some (query_openai env (net "MAN")).text
  else if face = "LION" then some (query_anthropic env (net "LION")).text
  else if face = "OX" then some (query_ollama (net "OX")).text
  else if face = "EAGLE" then some (query_deepseek env (net "EAGLE")).text
  else none

/-- Fold step building the responses dict. -/
def buildStep (env : Env) (net : String → NetOutcome) (m : List (String × String))
    (face : String) : List (String × String) :=
  match queryFace env net face with
  | some t => dinsert face t m
  | none => m

/-- Embedding of `JoinityOrchestrator.calculate_harmony`
(src/merkabah_joinity.py, lines 121-132). -/
def calculate_harmony (responses : List (String × String)) : ℚ :=
  if responses.isEmpty then 0
  else
    round3 (qmin 1 ((((responses.map (fun p => (p.2.length : ℚ))).sum /
      (responses.length : ℚ))) / 1000))

/-- Result dict of `JoinityOrchestrator.orchestrate` (the wall-clock timestamp
field is outside the model). -/
structure OrchestrationResult where
  prompt : String
  responses : List (String × String)
  harmony_score : ℚ
  status : String

/-- Default face list used when `orchestrate` is called with `faces=None`. -/
def defaultFaces : List String := ["MAN", "LION", "OX", "EAGLE"]

/-- Embedding of `JoinityOrchestrator.orchestrate`
(src/merkabah_joinity.py, lines 93-119). -/
def orchestrate (env : Env) (net : String → NetOutcome) (prompt : String)
    (faces : Option (List String)) : OrchestrationResult :=
  let fs := faces.getD defaultFaces
  let responses := fs.foldl (buildStep env net) []
  { prompt := prompt
    responses := responses
    harmony_score := calculate_harmony responses
    status := "complete" }

end Joinity

/-- Reference message scorer written from the specification's words: the
equal-weight (0.25 each) average of `min(1, len/200)`, `min(1, words/50)`,
`clamp(0, 1, 0.5 + (positive_hits - negative_hits)/10)` and
`min(1, punctuation/5)`, rounded to 3 decimals. -/
def specScore (text : String) : ℚ :=
  Merkabah.round3 ((Merkabah.qmin 1 ((text.length : ℚ) / 200) +
    Merkabah.qmin 1 ((Merkabah.wordCount text : ℚ) / 50) +
    Merkabah.qmax 0 (Merkabah.qmin 1 (0.5 +
      (((Merkabah.hits WhatsApp.positive_words text : ℤ) -
        (Merkabah.hits WhatsApp.negative_words text : ℤ)) : ℚ) / 10)) +
    Merkabah.qmin 1 ((Merkabah.punctCount text : ℚ) / 5)) / 4)

/-- Reference aggregate scorer written from the specification's words: total
combined character length of the response values divided by the response
count, divided by the 1000-character target, capped at 1.0, rounded to 3
decimals. -/
def specAggregate (responses : List (String × String)) : ℚ :=
  Merkabah.round3 (Merkabah.qmin 1
    (((responses.map (fun p => (p.2.length : ℚ))).sum / (responses.length : ℚ)) / 1000))

namespace Merkabah

theorem qmin1_le_one (x : ℚ) : qmin 1 x ≤ 1 := by
  rw [qmin_eq_min]
  exact min_le_left _ _

theorem qmin1_nonneg (x : ℚ) (hx : 0 ≤ x) : 0 ≤ qmin 1 x := by
  rw [qmin_eq_min]
  exact le_min (by norm_num) hx

theorem sentiment_of_nonneg (p n : ℕ) : 0 ≤ sentiment_of p n := by
  unfold sentiment_of
  rw [qmax_eq_max]
  exact le_max_left 0 _

theorem sentiment_of_le_one (p n : ℕ) : sentiment_of p n ≤ 1 := by
  unfold sentiment_of
  rw [qmax_eq_max, qmin_eq_min]
  exact max_le (by norm_num) (min_le_left _ _)

theorem sentiment_of_mono (p q n : ℕ) (h : p ≤ q) :
    sentiment_of p n ≤ sentiment_of q n := by
  have hpq : ((p : ℚ)) ≤ ((q : ℚ)) := by exact_mod_cast h
  unfold sentiment_of
  rw [qmax_eq_max, qmax_eq_max, qmin_eq_min, qmin_eq_min]
  push_cast
  refine max_le_max le_rfl (min_le_min le_rfl ?_)
  linarith

theorem pysplitAux_length (cs : List Char) : ∀ cur,
    (pysplitAux cur cs).length = wcAux cur.isEmpty cs + (if cur.isEmpty then 0 else 1) := by
  induction cs with
  | nil =>
    intro cur
    cases hcur : cur.isEmpty <;> simp [pysplitAux, wcAux, hcur]
  | cons c cs ih =>
    intro cur
    cases hc : isPySpace c <;> cases hcur : cur.isEmpty <;>
      (simp [pysplitAux, wcAux, hc, hcur, ih, List.isEmpty_iff]; try omega)

theorem wordCount_eq_wcAux (l : List Char) : (pysplit l).length = wcAux true l := by
  have := pysplitAux_length l []
  simpa [pysplit] using this

theorem wcAux_all_ws (b : List Char) (hb : ∀ c ∈ b, isPySpace c = true) :
    ∀ p, wcAux p b = 0 := by
  induction b with
  | nil => intro p; rfl
  | cons c cs ih =>
    intro p
    have hc : isPySpace c = true := hb c (List.mem_cons_self c cs)
    have := ih (fun d hd => hb d (List.mem_cons_of_mem c hd)) true
    simp [wcAux, hc, this]

theorem wcAux_append_ws (b : List Char) (hb : ∀ c ∈ b, isPySpace c = true) :
    ∀ (a : List Char) (p : Bool), wcAux p (a ++ b) = wcAux p a := by
  intro a
  induction a with
  | nil => intro p; simpa [wcAux] using wcAux_all_ws b hb p
  | cons c cs ih => intro p; simp [wcAux, ih]

theorem wcAux_dropWhile_ws (l : List Char) :
    wcAux true (l.dropWhile isPySpace) = wcAux true l := by
  induction l with
  | nil => rfl
  | cons c cs ih =>
    cases hc : isPySpace c
    · simp [List.dropWhile, hc]
    · simp [List.dropWhile, hc, wcAux, ih]

theorem mem_takeWhile_ws (p : Char → Bool) :
    ∀ (l : List Char), ∀ c ∈ l.takeWhile p, p c = true := by
  intro l
  induction l with
  | nil => intro c hc; simp [List.takeWhile] at hc
  | cons a as ih =>
    intro c hc
    by_cases ha : p a = true
    · rw [List.takeWhile_cons, if_pos ha] at hc
      rcases List.mem_cons.mp hc with h | h
      · rwa [h]
      · exact ih c h
    · rw [List.takeWhile_cons, if_neg ha] at hc
      simp at hc

theorem wcAux_pystrip (l : List Char) : wcAux true (pystrip l) = wcAux true l := by
  have key : ∀ d : List Char,
      wcAux true ((d.reverse.dropWhile isPySpace).reverse) = wcAux true d := by
    intro d
    have h1 : List.takeWhile isPySpace d.reverse ++ List.dropWhile isPySpace d.reverse =
        d.reverse := List.takeWhile_append_dropWhile isPySpace d.reverse
    have h2 : d = (d.reverse.dropWhile isPySpace).reverse ++
        (d.reverse.takeWhile isPySpace).reverse := by
      conv_lhs => rw [← List.reverse_reverse d, ← h1]
      rw [List.reverse_append]
    have hws : ∀ c ∈ (d.reverse.takeWhile isPySpace).reverse, isPySpace c = true := fun c hc =>
      mem_takeWhile_ws isPySpace d.reverse c (List.mem_reverse.mp hc)
    conv_rhs => rw [h2]
    rw [wcAux_append_ws _ hws]
  unfold pystrip
  rw [key, wcAux_dropWhile_ws]

theorem wordCount_pystrip (l : List Char) :
    wordCount (String.mk (pystrip l)) = wordCount (String.mk l) := by
  unfold wordCount
  show (pysplit (pystrip l)).length = (pysplit l).length
  rw [wordCount_eq_wcAux, wordCount_eq_wcAux, wcAux_pystrip]

theorem takeWhile_ws_dropWhile_takeWhile (q : Char → Bool) :
    ∀ l : List Char, ((l.dropWhile isPySpace).takeWhile q).takeWhile isPySpace = [] := by
  intro l
  induction l with
  | nil => rfl
  | cons c cs ih =>
    cases hc : isPySpace c
    · rw [List.dropWhile_cons, if_neg (by simp [hc])]
      cases hq : q c
      · rw [List.takeWhile_cons, if_neg (by simp [hq])]
        rfl
      · rw [List.takeWhile_cons, if_pos hq, List.takeWhile_cons, if_neg (by simp [hc])]
    · rw [List.dropWhile_cons, if_pos hc]
      exact ih

theorem dropWhile_eq_self_of (p : Char → Bool) (l : List Char)
    (h : l.takeWhile p = []) : l.dropWhile p = l := by
  cases l with
  | nil => rfl
  | cons c cs =>
    cases hc : p c
    · simp [List.dropWhile_cons, hc]
    · simp [List.takeWhile_cons, hc] at h

theorem pystrip_of_no_ws (l : List Char) (h1 : l.takeWhile isPySpace = [])
    (h2 : l.reverse.takeWhile isPySpace = []) : pystrip l = l := by
  unfold pystrip
  rw [dropWhile_eq_self_of _ _ h1, dropWhile_eq_self_of _ _ h2, List.reverse_reverse]

end Merkabah

open Merkabah

/-- C1: for every string, `WhatsAppExtractor.calculate_harmony_score` equals
the reference definition (equal-weight 0.25 average of the length, word,
sentiment and punctuation sub-scores, rounded to 3 decimals), its value always
lies in [0,1], and the empty string scores 0.125. Totality and determinism
hold by construction: the embedding is a total pure function of its input. -/
theorem harmony_score_matches_spec :
    (∀ t : String, WhatsApp.calculate_harmony_score t = specScore t) ∧
    (∀ t : String, 0 ≤ WhatsApp.calculate_harmony_score t ∧
      WhatsApp.calculate_harmony_score t ≤ 1) ∧
    WhatsApp.calculate_harmony_score ("") = 0.125 := by
  refine ⟨?_, ?_, ?_⟩
  · intro t
    unfold WhatsApp.calculate_harmony_score specScore WhatsApp.sentiment_score
      Merkabah.sentiment_of Merkabah.length_score Merkabah.word_score
      Merkabah.punctuation_score
    push_cast
    ring_nf
  · intro t
    have hl1 := qmin1_le_one ((t.length : ℚ) / 200)
    have hl0 := qmin1_nonneg ((t.length : ℚ) / 200) (by positivity)
    have hw1 := qmin1_le_one ((wordCount t : ℚ) / 50)
    have hw0 := qmin1_nonneg ((wordCount t : ℚ) / 50) (by positivity)
    have hp1 := qmin1_le_one ((punctCount t : ℚ) / 5)
    have hp0 := qmin1_nonneg ((punctCount t : ℚ) / 5) (by positivity)
    have hs1 := sentiment_of_le_one (hits WhatsApp.positive_words t)
      (hits WhatsApp.negative_words t)
    have hs0 := sentiment_of_nonneg (hits WhatsApp.positive_words t)
      (hits WhatsApp.negative_words t)
    unfold WhatsApp.calculate_harmony_score WhatsApp.sentiment_score
    unfold Merkabah.length_score Merkabah.word_score Merkabah.punctuation_score
    constructor
    · apply round3_nonneg
      nlinarith
    · apply round3_le_one
      nlinarith
  · have hl : Merkabah.length_score ("") = 0 := by
      norm_num [Merkabah.length_score, Merkabah.qmin, show ("").length = 0 from rfl]
    have hw : Merkabah.word_score ("") = 0 := by
      norm_num [Merkabah.word_score, Merkabah.qmin, show Merkabah.wordCount ("") = 0 from by decide]
    have hp : Merkabah.punctuation_score ("") = 0 := by
      norm_num [Merkabah.punctuation_score, Merkabah.qmin,
        show Merkabah.punctCount ("") = 0 from by decide]
    have hs : WhatsApp.sentiment_score ("") = 1/2 := by
      unfold WhatsApp.sentiment_score
      rw [show Merkabah.hits WhatsApp.positive_words ("") = 0 from by decide,
        show Merkabah.hits WhatsApp.negative_words ("") = 0 from by decide]
      norm_num [Merkabah.sentiment_of, Merkabah.qmin, Merkabah.qmax]
    unfold WhatsApp.calculate_harmony_score
    rw [hl, hw, hp, hs]
    rw [show (0 : ℚ) * 0.25 + 0 * 0.25 + (1/2) * 0.25 + 0 * 0.25 = 1/8 from by norm_num]
    rw [round3_eq 125 _ (by norm_num) (by norm_num)]
    norm_num

/-- C2: for every score the classifier yields exactly one of the four tiers,
the bands are exhaustive and non-overlapping with strictly-greater-than
thresholds, both code copies (`pipe_through_merkabah` actions and
`assign_face` faces) realize exactly these bands, and
classify 0.81 = ARCHIVE, 0.8 = VERIFY, 0.6 = PROCESS, 0.4 = REVIEW,
0 = REVIEW. -/
theorem tier_bands_exhaustive_and_disjoint :
    (∀ s : ℚ,
      (classify s = Tier.ARCHIVE ↔ 0.8 < s) ∧
      (classify s = Tier.VERIFY ↔ 0.6 < s ∧ s ≤ 0.8) ∧
      (classify s = Tier.PROCESS ↔ 0.4 < s ∧ s ≤ 0.6) ∧
      (classify s = Tier.REVIEW ↔ s ≤ 0.4)) ∧
    (∀ s : ℚ, Framework.assign_face s = tierFace (classify s)) ∧
    (∀ t : String, WhatsApp.pipe_through_merkabah t =
      (WhatsApp.calculate_harmony_score t,
       tierFace (classify (WhatsApp.calculate_harmony_score t)),
       tierAction (classify (WhatsApp.calculate_harmony_score t)))) ∧
    classify 0.81 = Tier.ARCHIVE ∧ classify 0.8 = Tier.VERIFY ∧
    classify 0.6 = Tier.PROCESS ∧ classify 0.4 = Tier.REVIEW ∧
    classify 0 = Tier.REVIEW := by
  refine ⟨?_, ?_, ?_, ?_, ?_, ?_, ?_, ?_⟩
  · intro s
    unfold classify
    split_ifs with h1 h2 h3
    · exact ⟨iff_of_true rfl h1,
        iff_of_false (by decide) (fun h => by linarith [h.2]),
        iff_of_false (by decide) (fun h => by linarith [h.2]),
        iff_of_false (by decide) (fun h => by linarith)⟩
    · exact ⟨iff_of_false (by decide) h1,
        iff_of_true rfl ⟨h2, not_lt.mp h1⟩,
        iff_of_false (by decide) (fun h => by linarith [h.2]),
        iff_of_false (by decide) (fun h => by linarith)⟩
    · exact ⟨iff_of_false (by decide) h1,
        iff_of_false (by decide) (fun h => h2 h.1),
        iff_of_true rfl ⟨h3, not_lt.mp h2⟩,
        iff_of_false (by decide) (fun h => by linarith)⟩
    · exact ⟨iff_of_false (by decide) h1,
        iff_of_false (by decide) (fun h => h2 h.1),
        iff_of_false (by decide) (fun h => h3 h.1),
        iff_of_true rfl (not_lt.mp h3)⟩
  · intro s
    unfold Framework.assign_face classify
    split_ifs <;> rfl
  · intro t
    simp only [WhatsApp.pipe_through_merkabah]
    unfold classify
    split_ifs <;> rfl
  · unfold classify
    rw [if_pos (by norm_num : (0.81 : ℚ) > 0.8)]
  · unfold classify
    rw [if_neg (by norm_num : ¬((0.8 : ℚ) > 0.8)), if_pos (by norm_num : (0.8 : ℚ) > 0.6)]
  · unfold classify
    rw [if_neg (by norm_num : ¬((0.6 : ℚ) > 0.8)), if_neg (by norm_num : ¬((0.6 : ℚ) > 0.6)),
      if_pos (by norm_num : (0.6 : ℚ) > 0.4)]
  · unfold classify
    rw [if_neg (by norm_num : ¬((0.4 : ℚ) > 0.8)), if_neg (by norm_num : ¬((0.4 : ℚ) > 0.6)),
      if_neg (by norm_num : ¬((0.4 : ℚ) > 0.4))]
  · unfold classify
    rw [if_neg (by norm_num : ¬((0 : ℚ) > 0.8)), if_neg (by norm_num : ¬((0 : ℚ) > 0.6)),
      if_neg (by norm_num : ¬((0 : ℚ) > 0.4))]

/-- C7 counterexample: on "Thanks! Great, great, great." the sentiment
sub-score is 0.7 (two positive lexicon hits give 0.5 + 2/10), not saturated
at 1.0 as the claim states. -/
theorem sentiment_saturation_counterexample :
    WhatsApp.sentiment_score ("Thanks! Great, great, great.") = 7/10 ∧
    ¬ WhatsApp.sentiment_score ("Thanks! Great, great, great.") = 1 := by
  have h : WhatsApp.sentiment_score ("Thanks! Great, great, great.") = 7/10 := by
    unfold WhatsApp.sentiment_score
    rw [show Merkabah.hits WhatsApp.positive_words ("Thanks! Great, great, great.") = 2
        from by decide,
      show Merkabah.hits WhatsApp.negative_words ("Thanks! Great, great, great.") = 0
        from by decide]
    norm_num [Merkabah.sentiment_of, Merkabah.qmin, Merkabah.qmax]
  refine ⟨h, ?_⟩
  rw [h]
  norm_num

/-- C7 amended: on "Thanks! Great, great, great." the sentiment sub-score is
0.7 (0.5 + 2/10 from its two positive lexicon hits), not 1.0; the sentiment
sub-score is monotone in the positive hit count, is capped at 1.0, and only
saturates once positive hits exceed negative hits by at least 5. -/
theorem sentiment_monotone_capped :
    WhatsApp.sentiment_score ("Thanks! Great, great, great.") = 0.5 + 2/10 ∧
    (∀ p q n : ℕ, p ≤ q → Merkabah.sentiment_of p n ≤ Merkabah.sentiment_of q n) ∧
    (∀ p n : ℕ, Merkabah.sentiment_of p n ≤ 1) ∧
    Merkabah.sentiment_of 5 0 = 1 := by
  refine ⟨?_, Merkabah.sentiment_of_mono, Merkabah.sentiment_of_le_one, ?_⟩
  · unfold WhatsApp.sentiment_score
    rw [show Merkabah.hits WhatsApp.positive_words ("Thanks! Great, great, great.") = 2
        from by decide,
      show Merkabah.hits WhatsApp.negative_words ("Thanks! Great, great, great.") = 0
        from by decide]
    norm_num [Merkabah.sentiment_of, Merkabah.qmin, Merkabah.qmax]
  · norm_num [Merkabah.sentiment_of, Merkabah.qmin, Merkabah.qmax]

/-- Witness for the monotonicity part of the amended C7 theorem. -/
theorem sentiment_monotone_capped_witness :
    Merkabah.sentiment_of 2 0 ≤ Merkabah.sentiment_of 3 0 :=
  sentiment_monotone_capped.2.1 2 3 0 (by norm_num)

/-- C10: sentiment hits are counted by case-insensitive substring containment
of each lexicon word in the whole text: the count depends only on which
lexicon words are contained (so repeating a word adds no hit), is bounded by
the lexicon size, and a lexicon word inside a longer word counts ("no" inside
"know"). -/
theorem hits_by_containment :
    (∀ (lex : List String) (t u : String),
      (∀ w ∈ lex, Merkabah.substrHit w t = Merkabah.substrHit w u) →
        Merkabah.hits lex t = Merkabah.hits lex u) ∧
    (∀ (lex : List String) (t : String), Merkabah.hits lex t ≤ lex.length) ∧
    Merkabah.hits WhatsApp.positive_words ("great") = 1 ∧
    Merkabah.hits WhatsApp.positive_words ("great great great") = 1 ∧
    Merkabah.hits WhatsApp.negative_words ("I know") = 1 ∧
    Merkabah.hits Framework.negative_words ("I know") = 1 := by
  refine ⟨?_, ?_, by decide, by decide, by decide, by decide⟩
  · intro lex t u h
    unfold Merkabah.hits
    induction lex with
    | nil => rfl
    | cons w ws ih =>
      simp only [List.countP_cons]
      rw [ih (fun w' hw' => h w' (List.mem_cons_of_mem w hw')),
        h w (List.mem_cons_self w ws)]
  · intro lex t
    unfold Merkabah.hits
    exact List.countP_le_length _

/-- Witness for the containment-congruence part of the C10 theorem. -/
theorem hits_by_containment_witness :
    Merkabah.hits WhatsApp.positive_words ("great") =
      Merkabah.hits WhatsApp.positive_words ("great, great!") :=
  hits_by_containment.1 WhatsApp.positive_words ("great") ("great, great!") (by decide)

theorem matchTail_body_no_leading_ws (rest : List Char) (c b : List Char)
    (h : WhatsApp.matchTail rest = some (c, b)) :
    b.takeWhile Merkabah.isPySpace = [] := by
  unfold WhatsApp.matchTail at h
  split at h
  · cases h
  · split at h
    · cases h
    · simp only [Option.some.injEq, Prod.mk.injEq] at h
      obtain ⟨hc, hb⟩ := h
      rw [← hb]
      exact Merkabah.takeWhile_ws_dropWhile_takeWhile _ _

theorem matchLine_body_no_leading_ws (cs : List Char) (g : WhatsApp.Groups)
    (h : WhatsApp.matchLine cs = some g) :
    g.body.takeWhile Merkabah.isPySpace = [] := by
  unfold WhatsApp.matchLine at h
  simp only [Option.bind_eq_bind, Option.bind_eq_some] at h
  obtain ⟨cs1, h1, h⟩ := h
  obtain ⟨⟨t1, cs2⟩, h2, h⟩ := h
  obtain ⟨cs3, h3, h⟩ := h
  obtain ⟨⟨t2, cs4⟩, h4, h⟩ := h
  obtain ⟨cs5, h5, h⟩ := h
  obtain ⟨⟨d1, cs6⟩, h6, h⟩ := h
  obtain ⟨cs7, h7, h⟩ := h
  obtain ⟨⟨d2, cs8⟩, h8, h⟩ := h
  obtain ⟨cs9, h9, h⟩ := h
  obtain ⟨⟨d3, cs10⟩, h10, h⟩ := h
  obtain ⟨cs11, h11, h⟩ := h
  obtain ⟨⟨contact, body⟩, h12, h⟩ := h
  have hg : g.body = body := by
    cases h
    rfl
  rw [hg]
  exact matchTail_body_no_leading_ws cs11 contact body h12

/-- C6 counterexample: on a matched line with trailing whitespace the stored
`length` (3, from the raw captured text "Hi ") differs from the character
count of the stored body "Hi" (2), refuting "length equals the character
count of its body". -/
theorem ingest_length_counterexample :
    WhatsApp.parse [("[14:05, 01/02/2023] Alice: Hi ")] =
      [{ timestamp := "01/02/2023 14:05", contact := "Alice", message := "Hi",
         length := 3, word_count := 1 }] ∧
    ¬ ((3 : ℕ) = ("Hi").length) := ⟨by decide, by decide⟩

/-- C6 amended: each line matching the pattern yields exactly one Message and
each non-matching line yields none; for each match, `word_count` equals the
whitespace-delimited token count of the stored body, while `length` equals
the character count of the raw captured body text before the trailing
whitespace strip applied to the stored body (the capture never starts with
whitespace, so the two agree exactly when the capture has no trailing
whitespace); the concrete example line parses as claimed. -/
theorem ingest_parse_properties :
    (∀ (l : String) (ls : List String) (g : WhatsApp.Groups),
      WhatsApp.matchLine l.data = some g →
        WhatsApp.parse (l :: ls) = WhatsApp.toMessage g :: WhatsApp.parse ls) ∧
    (∀ (l : String) (ls : List String), WhatsApp.matchLine l.data = none →
        WhatsApp.parse (l :: ls) = WhatsApp.parse ls) ∧
    (∀ g : WhatsApp.Groups, (WhatsApp.toMessage g).word_count =
      Merkabah.wordCount (WhatsApp.toMessage g).message) ∧
    (∀ g : WhatsApp.Groups, (WhatsApp.toMessage g).length = g.body.length) ∧
    (∀ (cs : List Char) (g : WhatsApp.Groups), WhatsApp.matchLine cs = some g →
      g.body.reverse.takeWhile Merkabah.isPySpace = [] →
        (WhatsApp.toMessage g).length = (WhatsApp.toMessage g).message.length) ∧
    WhatsApp.parse [("[14:05, 01/02/2023] Alice: Hello there!")] =
      [{ timestamp := "01/02/2023 14:05", contact := "Alice", message := "Hello there!",
         length := 12, word_count := 2 }] ∧
    WhatsApp.parse [("Messages are end-to-end encrypted")] = [] := by
  refine ⟨?_, ?_, ?_, ?_, ?_, by decide, by decide⟩
  · intro l ls g h
    unfold WhatsApp.parse
    simp [List.filterMap_cons, h]
  · intro l ls h
    unfold WhatsApp.parse
    simp [List.filterMap_cons, h]
  · intro g
    show Merkabah.wordCount (String.mk g.body) =
      Merkabah.wordCount (String.mk (Merkabah.pystrip g.body))
    exact (Merkabah.wordCount_pystrip g.body).symm
  · intro g
    rfl
  · intro cs g hm ht
    have hlead := matchLine_body_no_leading_ws cs g hm
    show g.body.length = (String.mk (Merkabah.pystrip g.body)).length
    rw [show (String.mk (Merkabah.pystrip g.body)).length = (Merkabah.pystrip g.body).length
      from rfl]
    rw [Merkabah.pystrip_of_no_ws g.body hlead ht]

/-- Witness for the amended C6 theorem: a non-matching line contributes zero
messages. -/
theorem ingest_parse_witness :
    WhatsApp.parse [("Messages are end-to-end encrypted"),
        ("[14:05, 01/02/2023] Alice: Hello there!")] =
      WhatsApp.parse [("[14:05, 01/02/2023] Alice: Hello there!")] :=
  ingest_parse_properties.2.1 ("Messages are end-to-end encrypted")
    [("[14:05, 01/02/2023] Alice: Hello there!")] (by decide)

/-- C5: on every non-empty collection of collected responses, the aggregate
harmony equals the spec's formula: total combined character length divided by
response count, divided by the 1000-character target, capped at 1.0, rounded
to 3 decimals (the 1000 target is distinct from the per-message scorer's 200,
as the respective definitions show). -/
theorem aggregate_harmony_matches_spec :
    ∀ responses : List (String × String), responses ≠ [] →
      Joinity.calculate_harmony responses = specAggregate responses := by
  intro rs h
  unfold Joinity.calculate_harmony specAggregate
  rw [if_neg (by simpa using h)]

/-- Witness for the C5 theorem on a one-response collection. -/
theorem aggregate_harmony_witness :
    Joinity.calculate_harmony [(("OX" : String), ("abc" : String))] =
      specAggregate [(("OX" : String), ("abc" : String))] :=
  aggregate_harmony_matches_spec [(("OX" : String), ("abc" : String))] (by decide)

/-- C3: every backend query returns a typed result on every path: with the
credential absent from the configuration — unset, or set to the empty string,
which Python's `if not api_key` also treats as missing — it returns the
missing-credential message without issuing a request; with a truthy
credential it returns the code-carrying error string on a non-success status,
the wrapped exception message on a network fault or a malformed body, and the
extracted text on success — an exhaustive case split, so no path escapes
without a value. -/
theorem backend_query_never_raises :
    ∀ (b : Joinity.Backend) (env : Joinity.Env) (net : Joinity.NetOutcome),
      ((∃ k, Joinity.credKey b = some k ∧ (env k = none ∨ env k = some (""))) →
        Joinity.query b env net = ⟨Joinity.missingMsg b, false⟩) ∧
      (Joinity.credOk b env →
        (∀ status ext, net = Joinity.NetOutcome.reply status ext → ¬ status = 200 →
          Joinity.query b env net = ⟨Joinity.codeErrMsg b status, true⟩) ∧
        (∀ d, net = Joinity.NetOutcome.netfail d →
          Joinity.query b env net = ⟨Joinity.excMsg b d, true⟩) ∧
        (∀ e, net = Joinity.NetOutcome.reply 200 (Except.error e) →
          Joinity.query b env net = ⟨Joinity.excMsg b e, true⟩) ∧
        (∀ s, net = Joinity.NetOutcome.reply 200 (Except.ok s) →
          Joinity.query b env net = ⟨s, true⟩)) := by
  intro b env net
  cases b
  case openai =>
    constructor
    · rintro ⟨k, hk, henv⟩
      simp only [Joinity.credKey, Option.some.injEq] at hk
      subst hk
      rcases henv with h | h <;>
        simp [Joinity.query, Joinity.query_openai, h, Joinity.missingMsg]
    · intro hcred
      obtain ⟨v, hv, hvne⟩ := hcred _ rfl
      refine ⟨?_, ?_, ?_, ?_⟩
      · rintro status ext rfl h200
        simp [Joinity.query, Joinity.query_openai, hv, hvne, h200, Joinity.codeErrMsg]
      · rintro d rfl
        simp [Joinity.query, Joinity.query_openai, hv, hvne, Joinity.excMsg]
      · rintro e rfl
        simp [Joinity.query, Joinity.query_openai, hv, hvne, Joinity.excMsg]
      · rintro s rfl
        simp [Joinity.query, Joinity.query_openai, hv, hvne]
  case anthropic =>
    constructor
    · rintro ⟨k, hk, henv⟩
      simp only [Joinity.credKey, Option.some.injEq] at hk
      subst hk
      rcases henv with h | h <;>
        simp [Joinity.query, Joinity.query_anthropic, h, Joinity.missingMsg]
    · intro hcred
      obtain ⟨v, hv, hvne⟩ := hcred _ rfl
      refine ⟨?_, ?_, ?_, ?_⟩
      · rintro status ext rfl h200
        simp [Joinity.query, Joinity.query_anthropic, hv, hvne, h200, Joinity.codeErrMsg]
      · rintro d rfl
        simp [Joinity.query, Joinity.query_anthropic, hv, hvne, Joinity.excMsg]
      · rintro e rfl
        simp [Joinity.query, Joinity.query_anthropic, hv, hvne, Joinity.excMsg]
      · rintro s rfl
        simp [Joinity.query, Joinity.query_anthropic, hv, hvne]
  case ollama =>
    constructor
    · rintro ⟨k, hk, henv⟩
      simp [Joinity.credKey] at hk
    · intro _
      refine ⟨?_, ?_, ?_, ?_⟩
      · rintro status ext rfl h200
        simp [Joinity.query, Joinity.query_ollama, h200, Joinity.codeErrMsg]
      · rintro d rfl
        simp [Joinity.query, Joinity.query_ollama, Joinity.excMsg]
      · rintro e rfl
        simp [Joinity.query, Joinity.query_ollama, Joinity.excMsg]
      · rintro s rfl
        simp [Joinity.query, Joinity.query_ollama]
  case deepseek =>
    constructor
    · rintro ⟨k, hk, henv⟩
      simp only [Joinity.credKey, Option.some.injEq] at hk
      subst hk
      rcases henv with h | h <;>
        simp [Joinity.query, Joinity.query_deepseek, h, Joinity.missingMsg]
    · intro hcred
      obtain ⟨v, hv, hvne⟩ := hcred _ rfl
      refine ⟨?_, ?_, ?_, ?_⟩
      · rintro status ext rfl h200
        simp [Joinity.query, Joinity.query_deepseek, hv, hvne, h200, Joinity.codeErrMsg]
      · rintro d rfl
        simp [Joinity.query, Joinity.query_deepseek, hv, hvne, Joinity.excMsg]
      · rintro e rfl
        simp [Joinity.query, Joinity.query_deepseek, hv, hvne, Joinity.excMsg]
      · rintro s rfl
        simp [Joinity.query, Joinity.query_deepseek, hv, hvne]

/-- Witness for the C3 theorem: with the credential unset (OpenAI) or set to
the empty string (DeepSeek), the variant returns the missing-credential
message without issuing a request, whatever the network would have done. -/
theorem backend_query_witness :
    Joinity.query Joinity.Backend.openai (fun _ => none)
      (Joinity.NetOutcome.netfail ("timeout")) =
      ⟨"[MAN] OpenAI API key not configured", false⟩ ∧
    Joinity.query Joinity.Backend.deepseek (fun _ => some (""))
      (Joinity.NetOutcome.reply 500 (Except.error ("boom"))) =
      ⟨"[EAGLE] DeepSeek API key not configured", false⟩ :=
  ⟨(backend_query_never_raises Joinity.Backend.openai (fun _ => none)
      (Joinity.NetOutcome.netfail ("timeout"))).1 ⟨"OPENAI_API_KEY", rfl, Or.inl rfl⟩,
    (backend_query_never_raises Joinity.Backend.deepseek (fun _ => some (""))
      (Joinity.NetOutcome.reply 500 (Except.error ("boom")))).1
        ⟨"DEEPSEEK_API_KEY", rfl, Or.inr rfl⟩⟩

theorem lookupKey_map_update (k v : String) :
    ∀ m : List (String × String), m.any (fun p => p.1 == k) = true →
      Joinity.lookupKey k (m.map (fun p => if p.1 == k then (k, v) else p)) = some v := by
  intro m
  induction m with
  | nil => intro h; simp at h
  | cons p ps ih =>
    intro h
    by_cases hp : p.1 = k
    · simp [Joinity.lookupKey, hp]
    · have hps : ps.any (fun q => q.1 == k) = true := by simpa [hp] using h
      simp [Joinity.lookupKey, hp]
      simpa using ih hps

theorem lookupKey_append_single (k v : String) :
    ∀ m : List (String × String), m.any (fun p => p.1 == k) = false →
      Joinity.lookupKey k (m ++ [(k, v)]) = some v := by
  intro m
  induction m with
  | nil => intro _; simp [Joinity.lookupKey]
  | cons p ps ih =>
    intro h
    by_cases hp : p.1 = k
    · rw [List.any_cons] at h
      simp [hp] at h
    · have hps : ps.any (fun q => q.1 == k) = false := by simpa [hp] using h
      simp [Joinity.lookupKey, hp]
      simpa using ih hps

theorem lookupKey_dinsert_self (k v : String) (m : List (String × String)) :
    Joinity.lookupKey k (Joinity.dinsert k v m) = some v := by
  unfold Joinity.dinsert
  cases h : m.any (fun p => p.1 == k)
  · rw [if_neg (by simp)]
    exact lookupKey_append_single k v m h
  · rw [if_pos rfl]
    exact lookupKey_map_update k v m h

theorem lookupKey_dinsert_ne (k k' v : String) (hne : ¬ k = k') :
    ∀ m : List (String × String),
      Joinity.lookupKey k' (Joinity.dinsert k v m) = Joinity.lookupKey k' m := by
  have hne' : ¬ k' = k := fun h => hne h.symm
  have hmap : ∀ m : List (String × String),
      Joinity.lookupKey k' (m.map (fun p => if p.1 == k then (k, v) else p)) =
        Joinity.lookupKey k' m := by
    intro m
    induction m with
    | nil => rfl
    | cons p ps ih =>
      by_cases hp : p.1 = k
      · simp [Joinity.lookupKey, hp, hne]
        simpa using ih
      · by_cases hp2 : p.1 = k'
        · simp [Joinity.lookupKey, hp, hp2, hne']
        · simp [Joinity.lookupKey, hp, hp2]
          simpa using ih
  have happ : ∀ m : List (String × String),
      Joinity.lookupKey k' (m ++ [(k, v)]) = Joinity.lookupKey k' m := by
    intro m
    induction m with
    | nil => simp [Joinity.lookupKey, hne]
    | cons p ps ih =>
      by_cases hp2 : p.1 = k'
      · simp [Joinity.lookupKey, hp2]
      · simp [Joinity.lookupKey, hp2]
        simpa using ih
  intro m
  unfold Joinity.dinsert
  cases h : m.any (fun p => p.1 == k)
  · rw [if_neg (by simp)]
    exact happ m
  · rw [if_pos rfl]
    exact hmap m

theorem lookup_foldl_persist (env : Joinity.Env) (net : String → Joinity.NetOutcome)
    (k v : String) :
    ∀ (faces : List String) (m : List (String × String)),
      Joinity.lookupKey k m = some v → Joinity.queryFace env net k = some v →
      Joinity.lookupKey k (faces.foldl (Joinity.buildStep env net) m) = some v := by
  intro faces
  induction faces with
  | nil => intro m hm _; simpa using hm
  | cons f fs ih =>
    intro m hm hq
    simp only [List.foldl_cons]
    have hstep : Joinity.lookupKey k (Joinity.buildStep env net m f) = some v := by
      unfold Joinity.buildStep
      by_cases hfk : f = k
      · subst hfk
        rw [hq]
        exact lookupKey_dinsert_self f v m
      · cases hqf : Joinity.queryFace env net f with
        | none => exact hm
        | some t =>
          show Joinity.lookupKey k (Joinity.dinsert f t m) = some v
          rw [lookupKey_dinsert_ne f k t hfk m]
          exact hm
    exact ih (Joinity.buildStep env net m f) hstep hq

theorem lookup_foldl_mem (env : Joinity.Env) (net : String → Joinity.NetOutcome)
    (k v : String) :
    ∀ (faces : List String) (m : List (String × String)),
      k ∈ faces → Joinity.queryFace env net k = some v →
      Joinity.lookupKey k (faces.foldl (Joinity.buildStep env net) m) = some v := by
  intro faces
  induction faces with
  | nil => intro m hmem _; simp at hmem
  | cons f fs ih =>
    intro m hmem hq
    simp only [List.foldl_cons]
    by_cases hfk : f = k
    · subst hfk
      have hstep : Joinity.lookupKey f (Joinity.buildStep env net m f) = some v := by
        unfold Joinity.buildStep
        rw [hq]
        exact lookupKey_dinsert_self f v m
      exact lookup_foldl_persist env net f v fs (Joinity.buildStep env net m f) hstep hq
    · rcases List.mem_cons.mp hmem with h | h
      · exact absurd h.symm hfk
      · exact ih (Joinity.buildStep env net m f) h hq

/-- C4: `orchestrate` always returns a complete result (status "complete",
echoing the prompt) and records each requested backend's outcome — success
text or error text alike — under that backend's face id in the responses
mapping; concretely, with the OpenAI credential absent and the Anthropic
backend succeeding, the result holds both outcomes distinctly and the failure
aborts nothing. -/
theorem orchestrate_total_and_isolated :
    (∀ (env : Joinity.Env) (net : String → Joinity.NetOutcome) (prompt : String)
        (faces : Option (List String)),
      (Joinity.orchestrate env net prompt faces).status = "complete" ∧
      (Joinity.orchestrate env net prompt faces).prompt = prompt ∧
      ∀ face ∈ faces.getD Joinity.defaultFaces, ∀ t,
        Joinity.queryFace env net face = some t →
          Joinity.lookupKey face (Joinity.orchestrate env net prompt faces).responses =
            some t) ∧
    (Joinity.orchestrate
        (fun k => if k = "ANTHROPIC_API_KEY" then some ("key") else none)
        (fun _ => Joinity.NetOutcome.reply 200 (Except.ok ("All is well"))) ("Q")
        (some ["MAN", "LION"])).responses =
      [("MAN", "[MAN] OpenAI API key not configured"), ("LION", "All is well")] := by
  constructor
  · intro env net prompt faces
    refine ⟨rfl, rfl, ?_⟩
    intro face hmem t hq
    unfold Joinity.orchestrate
    exact lookup_foldl_mem env net face t _ _ hmem hq
  · rfl

/-- Witness for the C4 theorem: an errored Ollama call is recorded under its
face id. -/
theorem orchestrate_witness :
    Joinity.lookupKey ("OX")
      (Joinity.orchestrate (fun _ => none)
        (fun _ => Joinity.NetOutcome.netfail ("down")) ("p")
        (some ["OX"])).responses = some ("[OX] Ollama not running or error: down") :=
  (orchestrate_total_and_isolated.1 (fun _ => none)
      (fun _ => Joinity.NetOutcome.netfail ("down")) ("p") (some ["OX"])).2.2
    ("OX") (by decide) ("[OX] Ollama not running or error: down") rfl

